import Mathlib

/-!
Verification of the partitioned-coupling driver of the dumux-adapter
repository, shallowly embedded from
`src/appl/conjugateheattransfer/iterative/main_solidenergy.cc` and
`src/examples/ff-pm/partitioned/eggenweiler-rybak-2d/main_darcy.cc`.

Doubles are modelled as rationals (the claims only involve `std::max`,
comparisons and additions, which are exact on the values considered);
the external black boxes (Newton solver, preCICE substrate, time loop)
are modelled as oracle parameters, one per coupling iteration.
-/

namespace DumuxAdapter

/-- The two preCICE checkpoint actions named in `main_solidenergy.cc`
(lines 98-99): `actionReadIterationCheckpoint` and
`actionWriteIterationCheckpoint`. -/
inductive PreciceAction
  | writeIterationCheckpoint
  | readIterationCheckpoint
  deriving DecidableEq, Repr

/-- Observable events of one coupling iteration of the solid-energy driver
loop, in program order. -/
inductive DriverEvent
  | checkpointSaved
  | fulfilledAction (a : PreciceAction)
  | newtonSolve
  | checkpointRestored
  | gridVarsUpdated
  | timeLoopAdvanced (t : ℚ)
  | vtkWrite (t : ℚ)
  | preciceAdvance (dtSent : ℚ) (dtReturned : ℚ)
  deriving DecidableEq, Repr

/-- The mutable state of `main` in `main_solidenergy.cc` that the coupling
loop (lines 209-268) touches: the solution vector `sol`, the previous
converged solution `solOld` (line 169), the checkpoint `sol_checkpoint`
(line 206), the number of `gridVariables->advanceTimeStep()` calls, the
time loop's `time` and `timeStepSize`, the list of times at which
`solidEnergyVtkWriter.write` was called, the number of accepted
(non-rollback) iterations, and the trace of events. -/
structure DriverState (σ : Type) where
  sol : σ
  solOld : σ
  solCheckpoint : σ
  gridVarsAdvances : ℕ
  time : ℚ
  dt : ℚ
  vtkTimes : List ℚ
  accepted : ℕ
  events : List DriverEvent
  deriving DecidableEq, Repr

/-- The external black boxes consulted during one coupling iteration:
whether `precice.isActionRequired(writeCheckpoint)` and
`precice.isActionRequired(readCheckpoint)` hold, the result of
`nonLinearSolver.solve` (as a function of `sol`, `solOld` and the
current `dt`), the sub-step `precice.advance` returns, and the value of
`nonLinearSolver.suggestTimeStepSize`. -/
structure IterOracle (σ : Type) where
  writeCpRequired : Bool
  readCpRequired : Bool
  newtonSolve : σ → σ → ℚ → σ
  adv : ℚ → ℚ
  suggestTimeStepSize : ℚ → ℚ

/-- One iteration of the `do { ... }` body of the time loop in
`main_solidenergy.cc`, lines 211-266, translated statement by statement:

* lines 211-216: if the write-checkpoint action is required,
  `sol_checkpoint = sol; precice.fulfilledAction(writeCheckpoint);`
* lines 225-228: `assembler->setPreviousSolution(solOld);
  nonLinearSolver.solve(sol, *timeLoop);`
* lines 233-234: `solOld = sol;
  solidEnergyGridVariables->advanceTimeStep();` (unconditionally,
  before the rollback branch);
* lines 236-242: if the read-checkpoint action is required,
  `sol = sol_checkpoint; freeFlowGridVariables->update(sol);
  precice.fulfilledAction(writeCheckpoint);` — the source acknowledges
  the WRITE-checkpoint action here, not the read-checkpoint one;
* lines 243-266 (else branch): `timeLoop->advanceTimeStep();
  solidEnergyVtkWriter.write(timeLoop->time()); timeLoop->reportTimeStep();
  const double preciceDt = precice.advance(timeLoop->timeStepSize());
  const double newDt = std::max(preciceDt, timeLoop->timeStepSize());
  timeLoop->setTimeStepSize(nonLinearSolver.suggestTimeStepSize(newDt));`
  — the source takes `std::max`, not `std::min`. -/
def iterStep {σ : Type} (o : IterOracle σ) (s : DriverState σ) : DriverState σ :=
  let s1 :=
    if o.writeCpRequired then
      { s with solCheckpoint := s.sol,
               events := s.events ++ [DriverEvent.checkpointSaved,
                 DriverEvent.fulfilledAction PreciceAction.writeIterationCheckpoint] }
    else s
  let newSol := o.newtonSolve s1.sol s1.solOld s1.dt
  let s2 := { s1 with sol := newSol, solOld := newSol,
                      gridVarsAdvances := s1.gridVarsAdvances + 1,
                      events := s1.events ++ [DriverEvent.newtonSolve] }
  if o.readCpRequired then
    { s2 with sol := s2.solCheckpoint,
              events := s2.events ++ [DriverEvent.checkpointRestored,
                DriverEvent.gridVarsUpdated,
                DriverEvent.fulfilledAction PreciceAction.writeIterationCheckpoint] }
  else
    let t' := s2.time + s2.dt
    let preciceDt := o.adv s2.dt
    let newDt := max preciceDt s2.dt
    { s2 with time := t',
              dt := o.suggestTimeStepSize newDt,
              vtkTimes := s2.vtkTimes ++ [t'],
              accepted := s2.accepted + 1,
              events := s2.events ++ [DriverEvent.timeLoopAdvanced t',
                DriverEvent.vtkWrite t',
                DriverEvent.preciceAdvance s2.dt preciceDt] }

/-- The state of `main` right before the time loop starts, embedding
lines 158-209 of `main_solidenergy.cc`: `preciceDt = precice.initialize()`
(line 158), `solOld = sol` (line 169), `solidEnergyVtkWriter.write(0.0)`
(line 179), `dt = getParam("TimeLoop.DtInitial")` then
`dt = std::max(dt, preciceDt)` (lines 185-188), the time loop constructed
as `TimeLoop(0, dt, tEnd)` (line 190), and `sol_checkpoint = sol`
(line 206). -/
def initState {σ : Type} (sol0 : σ) (userDtInitial preciceInitDt : ℚ) :
    DriverState σ :=
  { sol := sol0, solOld := sol0, solCheckpoint := sol0,
    gridVarsAdvances := 0, time := 0,
    dt := max userDtInitial preciceInitDt,
    vtkTimes := [0], accepted := 0, events := [] }

/-- `timeLoop->finished()`: the time loop is done once its time has
reached the end time. -/
def finished (tEnd : ℚ) (s : DriverState σ) : Bool :=
  decide (tEnd ≤ s.time)

/-- The `do { ... } while (!timeLoop->finished() && precice.isCouplingOngoing())`
loop of `main_solidenergy.cc` (lines 209-268), fuel-bounded. `env k` is the
oracle consulted during iteration `k` and `ongoing k` is the value
`precice.isCouplingOngoing()` returns after iteration `k`. The body runs,
then the loop re-enters the body exactly when the time loop is not finished
and the coupling is still ongoing. -/
def runLoop {σ : Type} (env : ℕ → IterOracle σ) (ongoing : ℕ → Bool)
    (tEnd : ℚ) : ℕ → ℕ → DriverState σ → DriverState σ
  | 0, _, s => s
  | fuel + 1, k, s =>
    let s' := iterStep (env k) s
    if (!(finished tEnd s') && ongoing k) = true then
      runLoop env ongoing tEnd fuel (k + 1) s'
    else s'

/-- A concrete benign oracle for accepted iterations: no checkpoint
actions, identity Newton solve, `advance` returning `1`, identity
time-step suggestion. -/
def acceptOracle : IterOracle ℚ :=
  { writeCpRequired := false, readCpRequired := false,
    newtonSolve := fun s _ _ => s, adv := fun _ => 1,
    suggestTimeStepSize := fun d => d }

/-- A concrete oracle for a rollback iteration: the read-checkpoint
action is required, the Newton solve increments the solution, `advance`
returns `1`. -/
def rollbackOracle : IterOracle ℚ :=
  { writeCpRequired := false, readCpRequired := true,
    newtonSolve := fun s _ _ => s + 1, adv := fun _ => 1,
    suggestTimeStepSize := fun d => d }

/-- C1: the claim says the time step installed after `advance` is at most
the returned `preciceDt`. The code (lines 262-265) computes
`newDt = std::max(preciceDt, timeLoop->timeStepSize())`: with the current
step size `2`, `advance` returning `1` and an identity
`suggestTimeStepSize`, the installed step size is `2 > 1 = preciceDt`, so
the returned sub-step is not an upper bound. -/
theorem c1_installed_dt_exceeds_preciceDt :
    acceptOracle.adv (initState (0 : ℚ) 2 2).dt = 1
    ∧ (iterStep acceptOracle (initState (0 : ℚ) 2 2)).dt = 2
    ∧ ¬ (iterStep acceptOracle (initState (0 : ℚ) 2 2)).dt
        ≤ acceptOracle.adv (initState (0 : ℚ) 2 2).dt := by
  refine ⟨rfl, ?_, ?_⟩ <;> simp [iterStep, acceptOracle, initState]

/-- C2: the claim says that on a rollback iteration the driver
acknowledges the read-checkpoint action after the restore. In the code
(lines 236-242) the branch queried on `readCheckpoint` restores the
solution and then calls `precice.fulfilledAction(writeCheckpoint)`: the
iteration's event trace contains an acknowledgment of the
write-checkpoint action and no acknowledgment of the read-checkpoint
action. -/
theorem c2_wrong_action_acknowledged :
    (iterStep rollbackOracle (initState (0 : ℚ) 1 1)).events
      = [DriverEvent.newtonSolve, DriverEvent.checkpointRestored,
         DriverEvent.gridVarsUpdated,
         DriverEvent.fulfilledAction PreciceAction.writeIterationCheckpoint]
    ∧ DriverEvent.fulfilledAction PreciceAction.readIterationCheckpoint
        ∉ (iterStep rollbackOracle (initState (0 : ℚ) 1 1)).events := by
  refine ⟨rfl, ?_⟩
  decide

/-- C3: the claim says `solOld` is unchanged on a rollback iteration. In
the code `solOld = sol` (line 233) executes unconditionally before the
rollback branch: on a rollback iteration whose Newton solve moves the
solution from `0` to `1`, `solOld` changes from `0` to `1`. -/
theorem c3_solOld_updated_on_rollback :
    rollbackOracle.readCpRequired = true
    ∧ (initState (0 : ℚ) 1 1).solOld = 0
    ∧ (iterStep rollbackOracle (initState (0 : ℚ) 1 1)).solOld = 1 := by
  refine ⟨rfl, rfl, ?_⟩
  simp [iterStep, rollbackOracle, initState]

/-- C4: in every iteration of the driver loop, a VTK frame is written
exactly when the iteration is accepted (read-checkpoint action not
required); a rollback iteration leaves the list of written frames
unchanged, an accepted iteration appends exactly one frame at the
advanced time. -/
theorem c4_vtk_written_iff_accepted {σ : Type} (o : IterOracle σ)
    (s : DriverState σ) :
    (o.readCpRequired = false
      ∧ (iterStep o s).vtkTimes = s.vtkTimes ++ [s.time + s.dt])
    ∨ (o.readCpRequired = true ∧ (iterStep o s).vtkTimes = s.vtkTimes) := by
  cases h : o.readCpRequired <;> cases hw : o.writeCpRequired <;>
    simp [iterStep, h, hw]

/-- A boundary sub-control-volume face as visited by the interface
extraction loop of `main_solidenergy.cc` (lines 109-125): its centre
coordinates (`scvf.center()`) and its index (`scvf.index()`). -/
structure BoundaryFace where
  center : List ℚ
  index : ℕ
  deriving DecidableEq, Repr

/-- The geometric predicate of line 118:
`pos[1] > bBox[1] - eps` with `eps = 1e-7` (line 116). -/
def onInterface (bBoxMax1 : ℚ) (f : BoundaryFace) : Bool :=
  decide (bBoxMax1 - 1 / 10 ^ 7 < f.center.getD 1 0)

/-- The flat coordinate array built by lines 120-123: for every face
satisfying the predicate, all its centre components are appended. -/
def extractCoords (bBoxMax1 : ℚ) (faces : List BoundaryFace) : List ℚ :=
  (faces.filter (onInterface bBoxMax1)).flatMap (fun f => f.center)

/-- The parallel array `coupledScvfIndices` of line 120. -/
def extractScvfIndices (bBoxMax1 : ℚ) (faces : List BoundaryFace) : List ℕ :=
  (faces.filter (onInterface bBoxMax1)).map (fun f => f.index)

/-- Line 127: `const auto vertexSize = coords.size() / dim`. -/
def vertexSize (dim : ℕ) (bBoxMax1 : ℚ) (faces : List BoundaryFace) : ℕ :=
  (extractCoords bBoxMax1 faces).length / dim

/-- Observable events of the startup section of `main_solidenergy.cc`
(lines 101-130). `throwInvalidState` is the `DUNE_THROW` of lines 102-103
(dimension mismatch); `setMeshVertices n` is the mesh registration of
line 130 with `n` vertices. `interfaceError` is the empty-interface
failure the specification expects; it is included so that its absence
from the code's trace can be stated — the source emits it nowhere. -/
inductive StartupEvent
  | throwInvalidState
  | setMeshVertices (numVertices : ℕ)
  | interfaceError
  deriving DecidableEq, Repr

/-- The startup sequence of `main_solidenergy.cc` lines 101-130: check
the substrate dimension against the grid dimension (throwing on
mismatch), extract the interface, and unconditionally register the
extracted vertices via `precice.setMeshVertices` — the source has no
check between extraction and registration that the interface is
non-empty. -/
def startupTrace (substrateDim gridDim : ℕ) (bBoxMax1 : ℚ)
    (faces : List BoundaryFace) : List StartupEvent :=
  if substrateDim ≠ gridDim then [StartupEvent.throwInvalidState]
  else [StartupEvent.setMeshVertices (vertexSize substrateDim bBoxMax1 faces)]

/-- C5 counterexample: the claim says an empty interface causes an
InterfaceError/EmptyInterface failure before mesh registration and that
a zero-size mesh is never registered. On a traversal matching no faces
the code raises no error and registers a mesh of size `0`. -/
theorem c5_empty_interface_registers_zero_mesh :
    startupTrace 2 2 1 [] = [StartupEvent.setMeshVertices 0]
    ∧ StartupEvent.interfaceError ∉ startupTrace 2 2 1 [] := by
  decide

/-- C5 amended: if the interface-extraction traversal matches no
boundary faces, the program raises no error and proceeds to register a
zero-size mesh with the coupling substrate (`setMeshVertices` is called
with `vertexSize = 0`). -/
theorem c5_no_empty_interface_check (substrateDim gridDim : ℕ)
    (bBoxMax1 : ℚ) (faces : List BoundaryFace)
    (hdim : substrateDim = gridDim)
    (hnone : ∀ f ∈ faces, onInterface bBoxMax1 f = false) :
    startupTrace substrateDim gridDim bBoxMax1 faces
      = [StartupEvent.setMeshVertices 0]
    ∧ StartupEvent.interfaceError
        ∉ startupTrace substrateDim gridDim bBoxMax1 faces := by
  have hfilter : faces.filter (onInterface bBoxMax1) = [] := by
    rw [List.filter_eq_nil_iff]
    intro f hf
    simp [hnone f hf]
  constructor <;>
    simp [startupTrace, hdim, vertexSize, extractCoords, hfilter]

/-- Witness for the amended C5: a single face whose centre lies away
from the coupling surface matches nothing, and the startup registers a
zero-size mesh without error. -/
theorem c5_no_empty_interface_check_witness :
    startupTrace 2 2 1 [⟨[0, 0], 5⟩] = [StartupEvent.setMeshVertices 0]
    ∧ StartupEvent.interfaceError ∉ startupTrace 2 2 1 [⟨[0, 0], 5⟩] :=
  c5_no_empty_interface_check 2 2 1 [⟨[0, 0], 5⟩] rfl (by
    intro f hf
    simp only [List.mem_singleton] at hf
    subst hf
    norm_num [onInterface, List.getD])

/-- C6: the initial time step used to start the time loop —
`dt = getParam("TimeLoop.DtInitial")` followed by
`dt = std::max(dt, preciceDt)` with `preciceDt = precice.initialize()`,
passed to the `TimeLoop` constructor — equals
`max userDtInitial preciceInitDt`: it dominates both inputs and
coincides with one of them. -/
theorem c6_initial_dt_is_max {σ : Type} (sol0 : σ)
    (userDtInitial preciceInitDt : ℚ) :
    (initState sol0 userDtInitial preciceInitDt).dt
      = max userDtInitial preciceInitDt
    ∧ userDtInitial ≤ (initState sol0 userDtInitial preciceInitDt).dt
    ∧ preciceInitDt ≤ (initState sol0 userDtInitial preciceInitDt).dt
    ∧ ((initState sol0 userDtInitial preciceInitDt).dt = userDtInitial
      ∨ (initState sol0 userDtInitial preciceInitDt).dt = preciceInitDt) := by
  refine ⟨rfl, le_max_left _ _, le_max_right _ _, ?_⟩
  simpa [initState] using max_choice userDtInitial preciceInitDt

/-- C7: the checkpoint restore of line 239 (`sol = sol_checkpoint`) is
idempotent and non-consuming: two successive rollback iterations with no
intervening checkpoint save leave the solution at the stored snapshot
both times, and a rollback iteration leaves the snapshot itself
unchanged. -/
theorem c7_restore_idempotent {σ : Type} (o1 o2 : IterOracle σ)
    (s : DriverState σ)
    (h1w : o1.writeCpRequired = false) (h1r : o1.readCpRequired = true)
    (h2w : o2.writeCpRequired = false) (h2r : o2.readCpRequired = true) :
    (iterStep o2 (iterStep o1 s)).sol = (iterStep o1 s).sol
    ∧ (iterStep o1 s).solCheckpoint = s.solCheckpoint
    ∧ (iterStep o1 s).sol = s.solCheckpoint := by
  simp [iterStep, h1w, h1r, h2w, h2r]

/-- Witness for C7 at a concrete rollback oracle and initial state. -/
theorem c7_restore_idempotent_witness :
    (iterStep rollbackOracle
        (iterStep rollbackOracle (initState (0 : ℚ) 1 1))).sol
      = (iterStep rollbackOracle (initState (0 : ℚ) 1 1)).sol
    ∧ (iterStep rollbackOracle (initState (0 : ℚ) 1 1)).solCheckpoint
      = (initState (0 : ℚ) 1 1).solCheckpoint
    ∧ (iterStep rollbackOracle (initState (0 : ℚ) 1 1)).sol
      = (initState (0 : ℚ) 1 1).solCheckpoint :=
  c7_restore_idempotent rollbackOracle rollbackOracle (initState (0 : ℚ) 1 1)
    rfl rfl rfl rfl

/-- C8: the `do { ... } while (!timeLoop->finished() && precice.isCouplingOngoing())`
loop exits immediately after an iteration exactly when the time loop
reports finished or the substrate reports the coupling is no longer
ongoing; otherwise the body is re-entered. -/
theorem c8_loop_exit_condition {σ : Type} (env : ℕ → IterOracle σ)
    (ongoing : ℕ → Bool) (tEnd : ℚ) (fuel k : ℕ) (s : DriverState σ) :
    ((finished tEnd (iterStep (env k) s) = true ∨ ongoing k = false) →
      runLoop env ongoing tEnd (fuel + 1) k s = iterStep (env k) s)
    ∧ ((finished tEnd (iterStep (env k) s) = false ∧ ongoing k = true) →
      runLoop env ongoing tEnd (fuel + 1) k s
        = runLoop env ongoing tEnd fuel (k + 1) (iterStep (env k) s)) := by
  constructor
  · intro h
    unfold runLoop
    rcases h with h | h <;> simp [h]
  · rintro ⟨h1, h2⟩
    conv_lhs => rw [runLoop]
    simp [h1, h2]

/-- Witness for C8: with a substrate that stops the coupling after the
first iteration, the loop performs exactly one iteration regardless of
the remaining fuel. -/
theorem c8_loop_exit_condition_witness :
    runLoop (fun _ => acceptOracle) (fun _ => false) 10 (3 + 1) 0
        (initState (0 : ℚ) 1 1)
      = iterStep acceptOracle (initState (0 : ℚ) 1 1) :=
  (c8_loop_exit_condition (fun _ => acceptOracle) (fun _ => false) 10 3 0
    (initState (0 : ℚ) 1 1)).1 (Or.inr rfl)

/-- The exception classes that can escape `main` in
`main_solidenergy.cc`, together with the relevant part of the Dune/Dumux
class hierarchy: `Dumux::ParameterException` derives from
`Dune::Exception`; `Dune::DGFException` derives from `Dune::IOError`,
which derives from `Dune::Exception`; other exceptions are unrelated to
`Dune::Exception`. -/
inductive ExcClass
  | parameterException
  | dgfException
  | ioError
  | duneException
  | stdOther
  deriving DecidableEq, Repr

/-- The reflexive subclass relation of the hierarchy above. -/
def isSubclassOf : ExcClass → ExcClass → Bool
  | .parameterException, .parameterException => true
  | .parameterException, .duneException => true
  | .dgfException, .dgfException => true
  | .dgfException, .ioError => true
  | .dgfException, .duneException => true
  | .ioError, .ioError => true
  | .ioError, .duneException => true
  | .duneException, .duneException => true
  | .stdOther, .stdOther => true
  | _, _ => false

/-- The exit code of `main`: `return 0` on success (line 285), otherwise
the catch sequence of lines 287-310 dispatches the escaping exception to
the first handler whose class it derives from:
`catch (Dumux::ParameterException)` returns 1,
`catch (Dune::DGFException)` returns 2, `catch (Dune::Exception)`
returns 3, `catch (...)` returns 4. -/
def mainExitCode : Option ExcClass → ℕ
  | none => 0
  | some e =>
    if isSubclassOf e .parameterException then 1
    else if isSubclassOf e .dgfException then 2
    else if isSubclassOf e .duneException then 3
    else 4

/-- C9: the program exits 0 on success, 1 on a parameter/configuration
error, 2 on a grid-file (DGF) error, 3 on any other Dune framework
error (including IO errors), and 4 on any unknown exception. -/
theorem c9_exit_codes :
    mainExitCode none = 0
    ∧ mainExitCode (some ExcClass.parameterException) = 1
    ∧ mainExitCode (some ExcClass.dgfException) = 2
    ∧ mainExitCode (some ExcClass.duneException) = 3
    ∧ mainExitCode (some ExcClass.ioError) = 3
    ∧ mainExitCode (some ExcClass.stdOther) = 4 := by
  decide

/-- Observable events of `main` in `main_darcy.cc`
(`src/examples/ff-pm/partitioned/eggenweiler-rybak-2d/main_darcy.cc`). -/
inductive DarcyEvent
  | vtkWrite (t : ℚ)
  | newtonSolve
  | preciceAdvance
  deriving DecidableEq, Repr

/-- The straight-line event trace of `main` in `main_darcy.cc`:
`darcyVtkWriter.write(0.0)` (line 255), the single stationary
`nonLinearSolver.solve(sol)` (line 285), and `darcyVtkWriter.write(1.0)`
(line 289). The file has no coupling time loop and never calls the
substrate's `advance`. -/
def darcyEvents : List DarcyEvent :=
  [DarcyEvent.vtkWrite 0, DarcyEvent.newtonSolve, DarcyEvent.vtkWrite 1]

/-- The times at which the darcy main writes a VTK frame. -/
def darcyVtkWrites : List ℚ :=
  darcyEvents.filterMap fun e =>
    match e with
    | DarcyEvent.vtkWrite t => some t
    | _ => none

/-- The number of coupling iterations the darcy main performs: one per
`advance` call in its trace. -/
def darcyCouplingIterations : ℕ :=
  (darcyEvents.filter fun e => decide (e = DarcyEvent.preciceAdvance)).length

/-- One driver iteration changes the VTK frame count and the accepted
count by the same amount (one on acceptance, zero on rollback). -/
theorem iterStep_vtk_count {σ : Type} (o : IterOracle σ)
    (s : DriverState σ) :
    (iterStep o s).vtkTimes.length + s.accepted
      = (iterStep o s).accepted + s.vtkTimes.length := by
  cases h : o.readCpRequired <;> cases hw : o.writeCpRequired <;>
    simp [iterStep, h, hw] <;> omega

/-- Over any run of the coupling loop, the number of VTK frames grows by
exactly the number of accepted iterations. -/
theorem runLoop_vtk_count {σ : Type} (env : ℕ → IterOracle σ)
    (ongoing : ℕ → Bool) (tEnd : ℚ) (fuel : ℕ) :
    ∀ (k : ℕ) (s : DriverState σ),
    (runLoop env ongoing tEnd fuel k s).vtkTimes.length + s.accepted
      = (runLoop env ongoing tEnd fuel k s).accepted + s.vtkTimes.length := by
  induction fuel with
  | zero => intro k s; rw [runLoop]; omega
  | succ n ih =>
    intro k s
    rw [runLoop]
    by_cases h : (!finished tEnd (iterStep (env k) s) && ongoing k) = true
    · simp only [h, if_pos]
      have h1 := ih (k + 1) (iterStep (env k) s)
      have h2 := iterStep_vtk_count (env k) s
      omega
    · simp only [h, if_neg, if_false]
      exact iterStep_vtk_count (env k) s

/-- C10 amended: each of the two cited drivers writes its first VTK
frame at time `0.0` before any coupling iteration. For the iterative
solid-energy driver, a run with `k` accepted coupling iterations emits
`k + 1` frames in total. The darcy example has no coupling loop: it
performs `0` coupling iterations and emits exactly `2` frames (one at
`0.0`, one at `1.0` after its single stationary solve). -/
theorem c10_frames_accepted_plus_one {σ : Type} (sol0 : σ)
    (userDtInitial preciceInitDt tEnd : ℚ) (env : ℕ → IterOracle σ)
    (ongoing : ℕ → Bool) (fuel : ℕ) :
    (initState sol0 userDtInitial preciceInitDt).vtkTimes = [0]
    ∧ (runLoop env ongoing tEnd fuel 0
          (initState sol0 userDtInitial preciceInitDt)).vtkTimes.length
      = (runLoop env ongoing tEnd fuel 0
          (initState sol0 userDtInitial preciceInitDt)).accepted + 1
    ∧ darcyVtkWrites = [0, 1]
    ∧ darcyCouplingIterations = 0 := by
  refine ⟨rfl, ?_, rfl, rfl⟩
  have h := runLoop_vtk_count env ongoing tEnd fuel 0
    (initState sol0 userDtInitial preciceInitDt)
  have ha : (initState sol0 userDtInitial preciceInitDt).accepted = 0 := rfl
  have hv : (initState sol0 userDtInitial preciceInitDt).vtkTimes.length = 1 :=
    rfl
  rw [ha, hv] at h
  omega

/-- C10 counterexample: the claim's frame count `k + 1` fails on the
darcy driver, whose runs perform `0` accepted coupling iterations yet
emit `2` VTK frames. -/
theorem c10_darcy_counterexample :
    darcyVtkWrites.length = 2
    ∧ darcyCouplingIterations = 0
    ∧ darcyVtkWrites.length ≠ darcyCouplingIterations + 1 := by
  refine ⟨rfl, rfl, ?_⟩
  decide

end DumuxAdapter
